import Mathlib

/-!
Shallow embedding of `src/download_SMAP.py`, a single-file script that, for a
configured range of calendar dates, builds a Google Earth Engine request for
SMAP soil-moisture data, retrieves per-grid-cell band value lists, replaces the
sentinel fill value -9999 by NaN, reshapes each band to a one-column array and
saves it to a per-(date, band) file.  Raster values are modelled by `Val`
(a rational number or NaN), the remote response by a list of features carrying
an association list of band properties, and the script run by a list of
save/log events parameterised over a response environment.
-/

namespace DownloadSMAP

/-- A numeric raster value: either NaN (the missing-value marker) or a number.
NumPy float payloads are modelled by rationals. -/
inductive Val where
  | nan : Val
  | num : Rat → Val
deriving DecidableEq, Repr

/-- Pointwise model of `np.where(data == -9999, np.nan, data)`: the sentinel
fill value -9999 becomes NaN, every other value is unchanged
(NaN == -9999 is false in NumPy, so NaN maps to NaN). -/
def replaceSentinel (v : Val) : Val :=
  if v = Val.num (-9999) then Val.nan else v

/-- Association-list lookup with decidable string keys, modelling Python
`dict` access on the JSON-like structures the script manipulates. -/
def alookup {α : Type} : List (String × α) → String → Option α
  | [], _ => none
  | (k, v) :: rest, key => if k = key then some v else alookup rest key

/-- One element of `extracted_data.getInfo()['features']`: a grid-cell feature
whose `properties` map band names to the list of pixel values collected by the
`toList` reducer over that cell. -/
structure Feature where
  properties : List (String × List Val)
deriving DecidableEq, Repr

/-- Model of `feature['properties'].get(band, [])`: the band's value list, defaulting to
the empty list when the key is absent. -/
def getProp (f : Feature) (band : String) : List Val :=
  (alookup f.properties band).getD []

/-- Line 32: `selected_bands = ['sm_surface','sm_rootzone']`. -/
def selected_bands : List String := ["sm_surface", "sm_rootzone"]

/-- Line 71: `final_bands = ['sm_surface','sm_rootzone']`. -/
def final_bands : List String := ["sm_surface", "sm_rootzone"]

/-- Line 91: `concatenated_data = \x7bband: [] for band in final_bands\x7d`. -/
def initDict (bands : List String) : List (String × List Val) :=
  bands.map (fun b => (b, []))

/-- Model of `concatenated_data[band].extend(xs)`: append `xs` to the entry whose key is
`band`, leaving every other entry untouched. -/
def extendEntry (dict : List (String × List Val)) (band : String)
    (xs : List Val) : List (String × List Val) :=
  dict.map (fun kv => if kv.1 = band then (kv.1, kv.2 ++ xs) else kv)

/-- The data one feature contributes to one band after the `np.where`
sentinel substitution (lines 96-97). -/
def processedChunk (f : Feature) (band : String) : List Val :=
  (getProp f band).map replaceSentinel

/-- The inner `for band in final_bands` loop body of lines 95-98, applied to
a single feature. -/
def stepFeature (bands : List String) (dict : List (String × List Val))
    (f : Feature) : List (String × List Val) :=
  bands.foldl (fun d band => extendEntry d band (processedChunk f band)) dict

/-- The state of `concatenated_data` after the `for feature in features` loop
of lines 94-98. -/
def concatenated_data (features : List Feature) : List (String × List Val) :=
  features.foldl (stepFeature final_bands) (initDict final_bands)

/-- Model of `np.array(concatenated_data[band])` before reshaping (line 102): the flat
per-band value list read back out of the accumulated dictionary. -/
def bandArray (features : List Feature) (band : String) : List Val :=
  (alookup (concatenated_data features) band).getD []

/-- The raw band list of the remote response: the concatenation, in feature
order, of each feature's value list for `band`, before any substitution. -/
def rawBand (features : List Feature) (band : String) : List Val :=
  (features.map (fun f => getProp f band)).flatten

/-- The processed counterpart of `rawBand` for one band: per-feature chunks
after sentinel substitution, concatenated in feature order. -/
def procBand (features : List Feature) (band : String) : List Val :=
  (features.map (fun f => processedChunk f band)).flatten

lemma procBand_nil (band : String) : procBand [] band = [] := rfl

lemma procBand_cons (f : Feature) (features : List Feature) (band : String) :
    procBand (f :: features) band = processedChunk f band ++ procBand features band := rfl

lemma stepFeature_two (A B : List Val) (f : Feature) :
    stepFeature final_bands [("sm_surface", A), ("sm_rootzone", B)] f =
      [("sm_surface", A ++ processedChunk f "sm_surface"),
       ("sm_rootzone", B ++ processedChunk f "sm_rootzone")] := by
  simp [stepFeature, final_bands, extendEntry]

lemma concatenated_go (features : List Feature) (A B : List Val) :
    features.foldl (stepFeature final_bands)
        [("sm_surface", A), ("sm_rootzone", B)] =
      [("sm_surface", A ++ procBand features "sm_surface"),
       ("sm_rootzone", B ++ procBand features "sm_rootzone")] := by
  induction features generalizing A B with
  | nil => simp [procBand_nil]
  | cons f rest ih =>
      rw [List.foldl_cons, stepFeature_two, ih, procBand_cons, procBand_cons,
        List.append_assoc, List.append_assoc]

/-- The accumulated dictionary is exactly the per-band concatenations, with
exactly the keys of `final_bands` in order. -/
lemma concatenated_data_eq (features : List Feature) :
    concatenated_data features =
      [("sm_surface", procBand features "sm_surface"),
       ("sm_rootzone", procBand features "sm_rootzone")] := by
  have h := concatenated_go features [] []
  simpa [concatenated_data, initDict, final_bands] using h

lemma bandArray_eq_procBand (features : List Feature) (band : String)
    (hband : band ∈ final_bands) :
    bandArray features band = procBand features band := by
  simp only [final_bands, List.mem_cons, List.not_mem_nil, or_false] at hband
  rcases hband with rfl | rfl
  · simp [bandArray, concatenated_data_eq, alookup]
  · simp [bandArray, concatenated_data_eq, alookup]

/-- The saved flat band list is the raw concatenated band list mapped through
the sentinel substitution. -/
lemma bandArray_eq_map (features : List Feature) (band : String)
    (hband : band ∈ final_bands) :
    bandArray features band = (rawBand features band).map replaceSentinel := by
  rw [bandArray_eq_procBand features band hband]
  simp [procBand, rawBand, processedChunk, List.map_flatten, List.map_map]
  rfl

/-! ## Calendar dates (`datetime.date` and `timedelta(days=1)`) -/

/-- Gregorian leap-year test, as in Python's `calendar.isleap`. -/
def isLeapYear (y : Nat) : Bool :=
  (y % 4 == 0 && y % 100 != 0) || (y % 400 == 0)

/-- Number of days in a month of a given year. -/
def daysInMonth (y m : Nat) : Nat :=
  if m = 2 then (if isLeapYear y then 29 else 28)
  else if m = 4 ∨ m = 6 ∨ m = 9 ∨ m = 11 then 30
  else 31

/-- The (year, month, day) triple is a valid `datetime.date` argument triple:
year within Python's MINYEAR..MAXYEAR and the day within the month. -/
def validDate (y m d : Nat) : Bool :=
  decide (1 ≤ y ∧ y ≤ 9999 ∧ 1 ≤ m ∧ m ≤ 12 ∧ 1 ≤ d ∧ d ≤ daysInMonth y m)

/-- A constructed `datetime.date` value. -/
structure PyDate where
  year : Nat
  month : Nat
  day : Nat
deriving DecidableEq, Repr

/-- Model of `date(year, month, day)` (line 38): returns the date, or raises
`ValueError` for out-of-range fields.  Python checks year, then month, then
day, with these messages. -/
def mkDate (y m d : Nat) : Except String PyDate :=
  if ¬ (1 ≤ y ∧ y ≤ 9999) then Except.error "year is out of range"
  else if ¬ (1 ≤ m ∧ m ≤ 12) then Except.error "month must be in 1..12"
  else if ¬ (1 ≤ d ∧ d ≤ daysInMonth y m) then Except.error "day is out of range for month"
  else Except.ok ⟨y, m, d⟩

/-- Model of `start + timedelta(days=1)` (line 39): the next calendar day, or
the `OverflowError("result out of range")` CPython raises when the result
would exceed `date.max` (9999-12-31). -/
def addOneDay (dt : PyDate) : Except String PyDate :=
  if dt.day < daysInMonth dt.year dt.month then
    Except.ok ⟨dt.year, dt.month, dt.day + 1⟩
  else if dt.month < 12 then Except.ok ⟨dt.year, dt.month + 1, 1⟩
  else if dt.year < 9999 then Except.ok ⟨dt.year + 1, 1, 1⟩
  else Except.error "result out of range"

/-- Zero-pad a number to at least two digits, as `f-string` `{n:02d}` and the
month/day fields of `date.isoformat` do. -/
def pad2 (n : Nat) : String :=
  if n < 10 then "0" ++ toString n else toString n

/-- Zero-pad a year to at least four digits, as `date.isoformat` does. -/
def pad4 (n : Nat) : String :=
  if n < 10 then "000" ++ toString n
  else if n < 100 then "00" ++ toString n
  else if n < 1000 then "0" ++ toString n
  else toString n

/-- Model of `date.isoformat()` (lines 40-41): `YYYY-MM-DD`. -/
def isoformat (dt : PyDate) : String :=
  pad4 dt.year ++ "-" ++ pad2 dt.month ++ "-" ++ pad2 dt.day

/-! ## The Earth Engine request object built by `create_image` -/

/-- An `ee.ImageCollection` expression. -/
inductive EECollection where
  | imageCollection : String → EECollection
  | filterDate : EECollection → String → String → EECollection
deriving DecidableEq, Repr

/-- A metadata tag value passed to `image.set`: either a plain integer or the
(remote) `ee.Date(s).millis()` of an ISO date string. -/
inductive TagVal where
  | natVal : Nat → TagVal
  | dateMillis : String → TagVal
deriving DecidableEq, Repr

/-- An `ee.Image` expression, one constructor per method the script calls. -/
inductive EEImage where
  | first : EECollection → EEImage
  | reproject : EEImage → String → Nat → EEImage
  | select : EEImage → List String → EEImage
  | unmask : EEImage → Int → Bool → EEImage
  | clip : EEImage → String → EEImage
  | setTags : EEImage → List (String × TagVal) → EEImage
deriving DecidableEq, Repr

/-- The asset id of the clipping shapefile collection (line 19). -/
def final_shp : String := "projects/atkins-droughts/assets/final_shp"

/-- Model of `create_image(year, month, day, selected_bands)` (lines 35-68): construct
the per-date request. `date(...)` may raise; everything after is pure request
building. -/
def create_image (year month day : Nat) (bands : List String) :
    Except String EEImage := do
  let start ← mkDate year month day
  let endDay ← addOneDay start
  let start_date := isoformat start
  let end_date := isoformat endDay
  let smap := EECollection.filterDate
    (EECollection.imageCollection "NASA/SMAP/SPL4SMGP/008") start_date end_date
  let image := EEImage.first smap
  let image := EEImage.reproject image "EPSG:4326" 4000
  let image := EEImage.select image bands
  let image := EEImage.clip (EEImage.unmask image (-9999) true) final_shp
  let image := EEImage.setTags image
    [("year", TagVal.natVal year), ("month", TagVal.natVal month),
     ("day", TagVal.natVal day),
     ("system:time_start", TagVal.dateMillis start_date),
     ("system:time_end", TagVal.dateMillis end_date)]
  pure image

/-! ## The per-date iteration body and the script run -/

/-- An observable effect of the loop body: `np.save` of a reshaped array to a
path (line 104), or the `print` of the `except` handler (line 109). -/
inductive Event where
  | save : String → List (List Val) → Event
  | log : String → Event
deriving DecidableEq, Repr

/-- Model of `.reshape(-1, 1)` of a flat array: one row per value. -/
def reshapeCol (xs : List Val) : List (List Val) :=
  xs.map (fun v => [v])

/-- The NumPy shape of a two-dimensional array value as produced by
`reshape(-1, 1)`: `(rows, row width)`, the width of an empty array being 1. -/
def shape2 (a : List (List Val)) : Nat × Nat :=
  (a.length, ((a.head?).map List.length).getD 1)

/-- The output filename template of line 103, with `{month:02d}`/`{day:02d}`
zero-padded. -/
def filename (year month day : Nat) (band : String) : String :=
  "/home/olivia/Flash_Droughts_Wildfires/SMAP_GEE/data/processed_"
    ++ toString year ++ "_" ++ pad2 month ++ "_" ++ pad2 day ++ "_"
    ++ band ++ "_array.npy"

/-- The remote service, abstracted: for each (year, month, day) it either
yields the feature list of `extracted_data.getInfo()['features']` or raises
(network failure, bad parameters, malformed response...). -/
def Env := Nat → Nat → Nat → Except String (List Feature)

/-- The save loop of lines 101-104: one `np.save` per band of `final_bands`,
in order. -/
def saveEvents (year month day : Nat) (features : List Feature) : List Event :=
  final_bands.map (fun band =>
    Event.save (filename year month day band)
      (reshapeCol (bandArray features band)))

/-- The message printed by the `except` handler (line 109):
`f"Error processing {year}-{month}-{day}: {e}"`. -/
def errMsg (year month day : Nat) (e : String) : String :=
  "Error processing " ++ toString year ++ "-" ++ toString month ++ "-"
    ++ toString day ++ ": " ++ e

/-- The `try` block of lines 77-105 for one date: build the request, execute
it remotely, post-process and save.  Any raised exception propagates as
`Except.error`. -/
def iterationBody (env : Env) (year month day : Nat) :
    Except String (List Event) := do
  let _image ← create_image year month day selected_bands
  let features ← env year month day
  pure (saveEvents year month day features)

/-- One full date iteration including the `except` handler: on success the
saves happen, on any exception a single log line is printed and control
returns to the loop. -/
def processDate (env : Env) (year month day : Nat) : List Event :=
  match iterationBody env year month day with
  | Except.ok evs => evs
  | Except.error e => [Event.log (errMsg year month day e)]

/-- Line 26: `years = range(2016, 2017)`. -/
def years : List Nat := List.range' 2016 1

/-- Line 27: `months = range(1, 2)`. -/
def months : List Nat := List.range' 1 1

/-- Line 28: `days = range(1, 4)`. -/
def days : List Nat := List.range' 1 3

/-- The (year, month, day) triples visited by the nested loops of lines 74-76,
in execution order. -/
def dateTriples (ys ms ds : List Nat) : List (Nat × Nat × Nat) :=
  ys.flatMap (fun y => ms.flatMap (fun m => ds.map (fun d => (y, m, d))))

/-- Run the date loop over an explicit list of triples, concatenating each
iteration's events in order. -/
def runDates (env : Env) (l : List (Nat × Nat × Nat)) : List Event :=
  l.flatMap (fun t => processDate env t.1 t.2.1 t.2.2)

/-- The whole script run (after Earth Engine initialisation), as the ordered
list of observable save/log events. -/
def runScript (env : Env) : List Event :=
  runDates env (dateTriples years months days)

/-- Strict lexicographic order on (year, month, day) triples. -/
def dateLT (a b : Nat × Nat × Nat) : Prop :=
  a.1 < b.1 ∨ (a.1 = b.1 ∧ (a.2.1 < b.2.1 ∨ (a.2.1 = b.2.1 ∧ a.2.2 < b.2.2)))

instance : DecidableRel dateLT := fun a b => by
  unfold dateLT
  infer_instance

/-! ## The local filesystem written by `np.save` -/

/-- The filesystem, as an association list from path to saved array content;
the most recent write for a path is found first. -/
def FS := List (String × List (List Val))

/-- Apply one event to the filesystem: `np.save` overwrites the path's
content, a printed log line leaves the filesystem unchanged. -/
def applyEvent (fs : FS) (ev : Event) : FS :=
  match ev with
  | Event.save p a => (p, a) :: fs
  | Event.log _ => fs

/-- The filesystem after a full script run started from `fs`. -/
def runFS (env : Env) (fs : FS) : FS :=
  (runScript env).foldl applyEvent fs

/-- Read a path's current content. -/
def readFile (fs : FS) (p : String) : Option (List (List Val)) :=
  alookup fs p

/-- An environment for concrete evaluation: every query succeeds with an
empty feature list. -/
def envEmpty : Env := fun _ _ _ => Except.ok []

/-! ## Helper lemmas -/

lemma mkDate_ok (y m d : Nat) (h : validDate y m d = true) :
    mkDate y m d = Except.ok ⟨y, m, d⟩ := by
  simp only [validDate, decide_eq_true_eq] at h
  obtain ⟨h1, h2, h3, h4, h5, h6⟩ := h
  simp [mkDate, h1, h2, h3, h4, h5, h6]

lemma mkDate_error (y m d : Nat) (h : validDate y m d = false) :
    ∃ e, mkDate y m d = Except.error e := by
  simp only [validDate, decide_eq_false_iff_not] at h
  by_cases h1 : 1 ≤ y ∧ y ≤ 9999
  · by_cases h2 : 1 ≤ m ∧ m ≤ 12
    · by_cases h3 : 1 ≤ d ∧ d ≤ daysInMonth y m
      · exact absurd ⟨h1.1, h1.2, h2.1, h2.2, h3.1, h3.2⟩ h
      · exact ⟨"day is out of range for month", by simp [mkDate, h1, h2, h3]⟩
    · exact ⟨"month must be in 1..12", by simp [mkDate, h1, h2]⟩
  · exact ⟨"year is out of range", by simp [mkDate, h1]⟩

lemma create_image_ok (year month day : Nat) (bands : List String) (nxt : PyDate)
    (h : validDate year month day = true)
    (hnext : addOneDay ⟨year, month, day⟩ = Except.ok nxt) :
    create_image year month day bands = Except.ok (EEImage.setTags
      (EEImage.clip (EEImage.unmask (EEImage.select (EEImage.reproject
        (EEImage.first (EECollection.filterDate
          (EECollection.imageCollection "NASA/SMAP/SPL4SMGP/008")
          (isoformat ⟨year, month, day⟩)
          (isoformat nxt)))
        "EPSG:4326" 4000) bands) (-9999) true) final_shp)
      [("year", TagVal.natVal year), ("month", TagVal.natVal month),
       ("day", TagVal.natVal day),
       ("system:time_start", TagVal.dateMillis (isoformat ⟨year, month, day⟩)),
       ("system:time_end", TagVal.dateMillis (isoformat nxt))]) := by
  unfold create_image
  rw [mkDate_ok year month day h]
  show addOneDay ⟨year, month, day⟩ >>= _ = _
  rw [hnext]
  rfl

lemma create_image_error (year month day : Nat) (bands : List String)
    (h : validDate year month day = false) :
    ∃ e, create_image year month day bands = Except.error e := by
  obtain ⟨e, he⟩ := mkDate_error year month day h
  refine ⟨e, ?_⟩
  unfold create_image
  rw [he]
  rfl

lemma iterationBody_ok (env : Env) (year month day : Nat)
    (features : List Feature) (nxt : PyDate)
    (hv : validDate year month day = true)
    (hnext : addOneDay ⟨year, month, day⟩ = Except.ok nxt)
    (henv : env year month day = Except.ok features) :
    iterationBody env year month day =
      Except.ok (saveEvents year month day features) := by
  unfold iterationBody
  rw [create_image_ok year month day selected_bands nxt hv hnext, henv]
  rfl

lemma iterationBody_error_of_invalid (env : Env) (year month day : Nat)
    (h : validDate year month day = false) :
    ∃ e, iterationBody env year month day = Except.error e := by
  obtain ⟨e, he⟩ := create_image_error year month day selected_bands h
  refine ⟨e, ?_⟩
  unfold iterationBody
  rw [he]
  rfl

lemma filename_ne (year month day : Nat) :
    filename year month day "sm_surface" ≠ filename year month day "sm_rootzone" := by
  intro h
  unfold filename at h
  have h2 := congrArg String.data h
  simp only [String.data_append, List.append_assoc] at h2
  repeat replace h2 := List.append_cancel_left h2
  exact absurd h2 (by decide)

lemma readFile_foldl_unwritten (evs : List Event) (p : String)
    (h : ∀ a, Event.save p a ∉ evs) :
    ∀ fs : FS, readFile (evs.foldl applyEvent fs) p = readFile fs p := by
  induction evs with
  | nil => intro fs; rfl
  | cons ev rest ih =>
      intro fs
      rw [List.foldl_cons, ih (fun a ha => h a (List.mem_cons_of_mem _ ha))]
      cases ev with
      | save q a =>
          have hq : ¬ q = p := by
            intro hqp
            exact h a (hqp ▸ List.mem_cons_self _ _)
          simp [applyEvent, readFile, alookup, hq]
      | log msg => rfl

lemma readFile_foldl_written (evs : List Event) (p : String)
    (h : ∃ a, Event.save p a ∈ evs) :
    ∀ fs₁ fs₂ : FS,
      readFile (evs.foldl applyEvent fs₁) p = readFile (evs.foldl applyEvent fs₂) p := by
  induction evs with
  | nil =>
      obtain ⟨a, ha⟩ := h
      cases ha
  | cons ev rest ih =>
      intro fs₁ fs₂
      by_cases hrest : ∃ a, Event.save p a ∈ rest
      · rw [List.foldl_cons, List.foldl_cons]
        exact ih hrest _ _
      · obtain ⟨a, ha⟩ := h
        rcases List.mem_cons.mp ha with heq | hmem
        · rw [List.foldl_cons, List.foldl_cons, ← heq]
          have hnr : ∀ b, Event.save p b ∉ rest := fun b hb => hrest ⟨b, hb⟩
          rw [readFile_foldl_unwritten rest p hnr, readFile_foldl_unwritten rest p hnr]
          simp [applyEvent, readFile, alookup]
        · exact absurd ⟨a, hmem⟩ hrest

/-- Does the event save to path `p`? -/
def isSaveTo (p : String) (ev : Event) : Bool :=
  match ev with
  | Event.save q _ => decide (q = p)
  | Event.log _ => false

/-- A second concrete environment, differing from `envEmpty` away from
2016-01-01: queries for other dates fail. -/
def envAlt : Env := fun y m d =>
  if y = 2016 ∧ m = 1 ∧ d = 1 then Except.ok [] else Except.error "boom"

/-! ## Claims -/

/-- C1: for every successful iteration and every band in `final_bands`, the
sentinel fill value -9999 never occurs in the saved per-band array, and every
position of the raw concatenated band list holding -9999 holds the
missing-value marker NaN in the saved array. -/
theorem sentinel_replaced_before_save (features : List Feature) (band : String)
    (hband : band ∈ final_bands) :
    Val.num (-9999) ∉ bandArray features band ∧
    ∀ i : Nat, (rawBand features band)[i]? = some (Val.num (-9999)) →
      (bandArray features band)[i]? = some Val.nan := by
  rw [bandArray_eq_map features band hband]
  constructor
  · intro hmem
    rcases List.mem_map.mp hmem with ⟨v, _, hrep⟩
    by_cases hv9 : v = Val.num (-9999)
    · rw [replaceSentinel, if_pos hv9] at hrep
      cases hrep
    · rw [replaceSentinel, if_neg hv9] at hrep
      exact hv9 hrep
  · intro i hi
    rw [List.getElem?_map, hi]
    simp [replaceSentinel]

/-- Concrete instance of C1: one feature with a -9999 in `sm_surface`. -/
theorem sentinel_replaced_before_save_witness :
    Val.num (-9999) ∉
      bandArray [⟨[("sm_surface", [Val.num 1, Val.num (-9999)]),
                   ("sm_rootzone", [])]⟩] "sm_surface" :=
  (sentinel_replaced_before_save
    [⟨[("sm_surface", [Val.num 1, Val.num (-9999)]), ("sm_rootzone", [])]⟩]
    "sm_surface" (by decide)).1

/-- C10: for every successful iteration and band, the saved flat array is
exactly the feature-order concatenation of the response's band lists mapped
through the sentinel substitution; it has the same length, and every
non-sentinel value is preserved unchanged at its original position. -/
theorem saved_is_ordered_concat (features : List Feature) (band : String)
    (hband : band ∈ final_bands) :
    bandArray features band = (rawBand features band).map replaceSentinel ∧
    (bandArray features band).length = (rawBand features band).length ∧
    ∀ (i : Nat) (v : Val), (rawBand features band)[i]? = some v →
      v ≠ Val.num (-9999) → (bandArray features band)[i]? = some v := by
  refine ⟨bandArray_eq_map features band hband, ?_, ?_⟩
  · rw [bandArray_eq_map features band hband, List.length_map]
  · intro i v hi hv
    rw [bandArray_eq_map features band hband, List.getElem?_map, hi]
    simp [replaceSentinel, hv]

/-- Concrete instance of C10: a non-sentinel value is preserved. -/
theorem saved_is_ordered_concat_witness :
    bandArray [⟨[("sm_surface", [Val.num 7]), ("sm_rootzone", [])]⟩] "sm_surface" =
      (rawBand [⟨[("sm_surface", [Val.num 7]), ("sm_rootzone", [])]⟩] "sm_surface").map
        replaceSentinel :=
  (saved_is_ordered_concat
    [⟨[("sm_surface", [Val.num 7]), ("sm_rootzone", [])]⟩]
    "sm_surface" (by decide)).1

/-- C3: for every successful iteration and band, the saved reshaped array has
NumPy shape (N, 1), where N is the total number of values collected for that
band across all grid-cell features (possibly 0). -/
theorem saved_array_column_shape (features : List Feature) (band : String)
    (hband : band ∈ final_bands) :
    shape2 (reshapeCol (bandArray features band)) =
      ((bandArray features band).length, 1) ∧
    (bandArray features band).length =
      (features.map (fun f => (getProp f band).length)).sum := by
  constructor
  · cases h : bandArray features band with
    | nil => rfl
    | cons v t => simp [shape2, reshapeCol]
  · rw [bandArray_eq_map features band hband, List.length_map, rawBand,
      List.length_flatten, List.map_map]
    rfl

/-- Concrete instance of C3: an empty response yields shape (0, 1). -/
theorem saved_array_column_shape_witness :
    shape2 (reshapeCol (bandArray [] "sm_surface")) =
      ((bandArray [] "sm_surface").length, 1) :=
  (saved_array_column_shape [] "sm_surface" (by decide)).1

/-- C9: a feature whose properties lack an entry for a band contributes zero
elements to that band's saved array, without failing the iteration: the lookup
defaults to the empty list, the saved array is as if the feature were absent
for that band, and an otherwise-sound iteration (valid date with an
in-range successor day, successful query) still succeeds. -/
theorem missing_band_key_defaults (pre post : List Feature) (f : Feature)
    (band : String) (hband : band ∈ final_bands)
    (hmiss : alookup f.properties band = none) :
    getProp f band = [] ∧
    bandArray (pre ++ f :: post) band = bandArray (pre ++ post) band ∧
    ∀ (env : Env) (year month day : Nat) (nxt : PyDate),
      validDate year month day = true →
      addOneDay ⟨year, month, day⟩ = Except.ok nxt →
      env year month day = Except.ok (pre ++ f :: post) →
      iterationBody env year month day =
        Except.ok (saveEvents year month day (pre ++ f :: post)) := by
  have hget : getProp f band = [] := by simp [getProp, hmiss]
  refine ⟨hget, ?_, ?_⟩
  · rw [bandArray_eq_map _ band hband, bandArray_eq_map _ band hband]
    simp [rawBand, hget]
  · intro env year month day nxt hv hnext henv
    exact iterationBody_ok env year month day _ nxt hv hnext henv

/-- Concrete instance of C9: a feature with no `sm_rootzone` key contributes
nothing to that band. -/
theorem missing_band_key_defaults_witness :
    getProp ⟨[("sm_surface", [Val.num 3])]⟩ "sm_rootzone" = [] :=
  (missing_band_key_defaults [] [] ⟨[("sm_surface", [Val.num 3])]⟩
    "sm_rootzone" (by decide) (by decide)).1

/-- C2: any exception raised while constructing or executing the remote query
for a date — in particular the `ValueError` of an invalid calendar date such
as February 30 — is caught: the iteration only prints a message containing the
offending date and the exception text, the loop structure processes the
remaining dates unchanged, and each configured date occurs exactly once (no
retry). -/
theorem date_loop_catches_and_continues (env : Env) (year month day : Nat) :
    (∀ e, iterationBody env year month day = Except.error e →
      processDate env year month day = [Event.log (errMsg year month day e)] ∧
      (∃ p q, errMsg year month day e =
        p ++ (toString year ++ "-" ++ toString month ++ "-" ++ toString day) ++ q) ∧
      (∃ r, errMsg year month day e = r ++ e)) ∧
    (validDate year month day = false →
      ∃ e, iterationBody env year month day = Except.error e) ∧
    (∀ rest, runDates env ((year, month, day) :: rest) =
      processDate env year month day ++ runDates env rest) ∧
    (dateTriples years months days).Nodup := by
  refine ⟨?_, ?_, ?_, by decide⟩
  · intro e he
    refine ⟨?_, ⟨"Error processing ", ": " ++ e, ?_⟩, ⟨_, rfl⟩⟩
    · unfold processDate
      rw [he]
    · simp [errMsg, String.append_assoc]
  · exact iterationBody_error_of_invalid env year month day
  · intro rest
    simp [runDates]

/-- Concrete instance of C2: February 30, 2016 is caught and logged. -/
theorem date_loop_catches_and_continues_witness :
    processDate envEmpty 2016 2 30 =
      [Event.log (errMsg 2016 2 30 "day is out of range for month")] :=
  ((date_loop_catches_and_continues envEmpty 2016 2 30).1
    "day is out of range for month" (by rfl)).1

/-- C5 counterexample: 9999-12-31 is a valid `datetime.date`, yet
`create_image` does not build the request there — `start + timedelta(days=1)`
overflows `date.max` and the whole constructor raises, so the claim's
"for every valid date" fails at this input. -/
theorem create_image_overflow_at_date_max :
    validDate 9999 12 31 = true ∧
    create_image 9999 12 31 selected_bands =
      Except.error "result out of range" :=
  ⟨by decide, by rfl⟩

/-- C5 (amended): for every valid date whose successor day is still within
`date.max` — every valid date except 9999-12-31 — and every band list,
`create_image` builds exactly the pipeline: filter the SMAP collection to the
one-day range from the date to the next calendar day, take the first image,
reproject to EPSG:4326 at scale 4000, select the bands, fill masked pixels
with -9999, clip to the region shapefile, and set the year/month/day and
time-range metadata tags. -/
theorem create_image_pipeline (year month day : Nat) (bands : List String)
    (nxt : PyDate) (h : validDate year month day = true)
    (hnext : addOneDay ⟨year, month, day⟩ = Except.ok nxt) :
    create_image year month day bands = Except.ok (EEImage.setTags
      (EEImage.clip (EEImage.unmask (EEImage.select (EEImage.reproject
        (EEImage.first (EECollection.filterDate
          (EECollection.imageCollection "NASA/SMAP/SPL4SMGP/008")
          (isoformat ⟨year, month, day⟩)
          (isoformat nxt)))
        "EPSG:4326" 4000) bands) (-9999) true) final_shp)
      [("year", TagVal.natVal year), ("month", TagVal.natVal month),
       ("day", TagVal.natVal day),
       ("system:time_start", TagVal.dateMillis (isoformat ⟨year, month, day⟩)),
       ("system:time_end", TagVal.dateMillis (isoformat nxt))]) :=
  create_image_ok year month day bands nxt h hnext

/-- Concrete instance of C5 at 2016-01-01, whose successor is 2016-01-02. -/
theorem create_image_pipeline_witness :
    create_image 2016 1 1 selected_bands = Except.ok (EEImage.setTags
      (EEImage.clip (EEImage.unmask (EEImage.select (EEImage.reproject
        (EEImage.first (EECollection.filterDate
          (EECollection.imageCollection "NASA/SMAP/SPL4SMGP/008")
          (isoformat ⟨2016, 1, 1⟩)
          (isoformat ⟨2016, 1, 2⟩)))
        "EPSG:4326" 4000) selected_bands) (-9999) true) final_shp)
      [("year", TagVal.natVal 2016), ("month", TagVal.natVal 1),
       ("day", TagVal.natVal 1),
       ("system:time_start", TagVal.dateMillis (isoformat ⟨2016, 1, 1⟩)),
       ("system:time_end", TagVal.dateMillis (isoformat ⟨2016, 1, 2⟩))]) :=
  create_image_pipeline 2016 1 1 selected_bands ⟨2016, 1, 2⟩ (by rfl) (by rfl)

/-- C6: the per-band mapping is created fresh each iteration with exactly the
keys of `final_bands` (in order) and empty initial value lists, each band's
array is the raw data mutated once by the sentinel substitution, and an
iteration's output depends only on that date's own response — data gathered
for one date never leaks into another date's arrays. -/
theorem concatenated_data_lifecycle :
    (initDict final_bands = final_bands.map (fun b => (b, ([] : List Val)))) ∧
    (∀ features : List Feature,
      (concatenated_data features).map Prod.fst = final_bands) ∧
    (∀ (features : List Feature) (band : String), band ∈ final_bands →
      bandArray features band = (rawBand features band).map replaceSentinel) ∧
    (∀ (env₁ env₂ : Env) (year month day : Nat),
      env₁ year month day = env₂ year month day →
      processDate env₁ year month day = processDate env₂ year month day) := by
  refine ⟨rfl, ?_, ?_, ?_⟩
  · intro features
    rw [concatenated_data_eq]
    rfl
  · exact fun features band hband => bandArray_eq_map features band hband
  · intro env₁ env₂ year month day h
    simp [processDate, iterationBody, h]

/-- Concrete instance of C6: two environments agreeing on 2016-01-01 (but
differing elsewhere) produce the same events for that date. -/
theorem concatenated_data_lifecycle_witness :
    processDate envEmpty 2016 1 1 = processDate envAlt 2016 1 1 :=
  concatenated_data_lifecycle.2.2.2 envEmpty envAlt 2016 1 1 (by simp [envEmpty, envAlt])

/-- C7: a successful iteration saves exactly one file per (date, band)
combination of `final_bands`, to the fixed path template embedding the year,
the zero-padded two-digit month and day, and the band name. -/
theorem one_file_per_date_band (env : Env) (year month day : Nat)
    (features : List Feature) (nxt : PyDate)
    (hv : validDate year month day = true)
    (hnext : addOneDay ⟨year, month, day⟩ = Except.ok nxt)
    (henv : env year month day = Except.ok features) :
    iterationBody env year month day =
      Except.ok (saveEvents year month day features) ∧
    (∀ band ∈ final_bands,
      (saveEvents year month day features).countP
        (isSaveTo (filename year month day band)) = 1) ∧
    (saveEvents year month day features).length = final_bands.length ∧
    (∀ band, filename year month day band =
      "/home/olivia/Flash_Droughts_Wildfires/SMAP_GEE/data/processed_"
        ++ toString year ++ "_" ++ pad2 month ++ "_" ++ pad2 day ++ "_"
        ++ band ++ "_array.npy") ∧
    (∀ k, k < 32 → (pad2 k).length = 2) ∧
    (∀ k, k < 10 → pad2 k = "0" ++ toString k) := by
  have hne := filename_ne year month day
  refine ⟨iterationBody_ok env year month day features nxt hv hnext henv, ?_, ?_, ?_, ?_, ?_⟩
  · intro band hband
    simp only [final_bands, List.mem_cons, List.not_mem_nil, or_false] at hband
    rcases hband with rfl | rfl
    · simp [saveEvents, final_bands, isSaveTo, List.countP_cons, Ne.symm hne]
    · simp [saveEvents, final_bands, isSaveTo, List.countP_cons, hne]
  · simp [saveEvents]
  · intro band
    rfl
  · decide
  · decide

/-- Concrete instance of C7 at 2016-01-01 with an empty response. -/
theorem one_file_per_date_band_witness :
    iterationBody envEmpty 2016 1 1 = Except.ok (saveEvents 2016 1 1 []) :=
  (one_file_per_date_band envEmpty 2016 1 1 [] ⟨2016, 1, 2⟩ (by rfl) (by rfl) rfl).1

/-- C8: the run enumerates the configured dates by nested loops in
lexicographic (year, month, day) order, and each date's iteration — query,
response, saves — completes and contributes its events before the next date's
begin; so saves for an earlier date precede saves for a later date. -/
theorem dates_processed_in_order (env : Env) :
    runScript env = runDates env (dateTriples years months days) ∧
    dateTriples years months days =
      years.flatMap (fun y =>
        months.flatMap (fun m => days.map (fun d => (y, m, d)))) ∧
    List.Pairwise dateLT (dateTriples years months days) ∧
    ∀ t rest, runDates env (t :: rest) =
      processDate env t.1 t.2.1 t.2.2 ++ runDates env rest := by
  refine ⟨rfl, rfl, by decide, ?_⟩
  intro t rest
  simp [runDates]

/-- C4: the post-processing and save pipeline is deterministic and the saves
overwrite: for a fixed remote-response environment, the content read back for
any path the run writes is the same whatever the prior state of the
filesystem — re-running overwrites prior output with identical content. -/
theorem rerun_idempotent_overwrite (env : Env) (fs₁ fs₂ : FS) (p : String)
    (h : ∃ a, Event.save p a ∈ runScript env) :
    readFile (runFS env fs₁) p = readFile (runFS env fs₂) p := by
  unfold runFS
  exact readFile_foldl_written (runScript env) p h fs₁ fs₂

/-- Concrete instance of C4: the saved file for 2016-01-01 `sm_surface` reads
back the same whether the filesystem was empty or held stale content at that
path. -/
theorem rerun_idempotent_overwrite_witness :
    readFile (runFS envEmpty []) (filename 2016 1 1 "sm_surface") =
      readFile (runFS envEmpty
        [(filename 2016 1 1 "sm_surface", [[Val.num 5]])])
        (filename 2016 1 1 "sm_surface") :=
  rerun_idempotent_overwrite envEmpty []
    [(filename 2016 1 1 "sm_surface", [[Val.num 5]])]
    (filename 2016 1 1 "sm_surface") ⟨[], by decide⟩

end DownloadSMAP
